import Mathlib

/-!
Shallow embedding of the connection-and-protocol engine of the
ethernet-uart-fpga repository (src/server.py and src/programManager.py).

Bytes are modelled as `Nat` values (< 256 on the wire), byte strings as
`List Nat`.  Python exceptions are modelled explicitly: a step that can
raise returns the state together with an `Option` error (a raise leaves
the mutations performed before the raise in place, exactly as in Python).
-/

namespace EthernetUart

/-- Command-header packing, from `Server._sendCommand` (server.py line 252):
`bytes([(hw << 7) | (cmd << 4) | info])`. -/
def encodeHeader (hw cmd info : Nat) : Nat :=
  (hw <<< 7) ||| (cmd <<< 4) ||| info

/-- Consumer-side header decoding, from `ProgramManager._handleReceivedData`
(programManager.py lines 214-217): `info = b & 0b1111`, `hw = b >> 7`,
`cmd = (b >> 4) & 0b111`.  Result is `(hw, cmd, info)`. -/
def decodeHeader (b : Nat) : Nat × Nat × Nat :=
  (b >>> 7, (b >>> 4) &&& 0b111, b &&& 0b1111)

/-- `bytes.ljust(n, pad)`: pad on the right up to length `n`. -/
def ljust (l : List Nat) (n : Nat) (pad : Nat) : List Nat :=
  l ++ List.replicate (n - l.length) pad

/-- The distinct `socket.error` raise sites of server.py, told apart by
their message (the spec taxonomy groups `badHw`/`badCmd`/`badInfo` as
`ProtocolError`, `notConnected` as `NotConnectedError`, `transmission`
as `TransmissionError`). -/
inductive SocketError where
  | notConnected
  | badHw
  | badCmd
  | badInfo
  | transmission
deriving Repr, DecidableEq

/-- `str(e)` for the modelled socket errors (the messages of server.py). -/
def SocketError.msg : SocketError → String
  | .notConnected => "No client is connected"
  | .badHw => "hw has to be 0 or 1"
  | .badCmd => "cmd has to be an integer between 0 and 7 included"
  | .badInfo => "info has to be an integer between 0 and 15 included"
  | .transmission => "transmission error"

/-- Spec taxonomy: which raise sites are `ProtocolError` (malformed
command fields, raised before any byte is sent). -/
def SocketError.isProtocol : SocketError → Bool
  | .badHw => true
  | .badCmd => true
  | .badInfo => true
  | _ => false

/-- The mutable state of a `Server` object that the claims touch:
`_bufferSize`, `_connectedSocket` (modelled as the boolean "a peer is
attached"), `_receivedData` (the inbound queue), and the trace of
`sendall` calls on the connected socket (one entry per call). -/
structure ServerState where
  bufferSize : Nat
  connected : Bool
  receivedData : List (List Nat)
  sentBytes : List (List Nat)
deriving Repr, DecidableEq

/-- `Server._sendCommand` (server.py lines 229-268).  Arguments are `Int`
(Python ints; the `isinstance(_, int)` guards are absorbed by the type).
Checks run in source order: connection first, then `hw`, `cmd`, `info`;
on success the single header byte is right-padded with zeros to the
buffer size and written in one `sendall`. -/
def _sendCommand (hw cmd info : Int) (st : ServerState) :
    ServerState × Option SocketError :=
  if st.connected = false then (st, some .notConnected)
  else if hw ≠ 0 ∧ hw ≠ 1 then (st, some .badHw)
  else if cmd < 0 ∨ 7 < cmd then (st, some .badCmd)
  else if info < 0 ∨ 15 < info then (st, some .badInfo)
  else
    let toSend := ljust [encodeHeader hw.toNat cmd.toNat info.toNat] st.bufferSize 0
    ({ st with sentBytes := st.sentBytes ++ [toSend] }, none)

/-- `Server.sendCommand` (server.py lines 213-226): the public entry
point.  `hw == 0 and cmd == 1` only logs "To send data use the sendData
method" and returns, before any other check. -/
def sendCommand (hw cmd info : Int) (st : ServerState) :
    ServerState × Option SocketError :=
  if hw = 0 ∧ cmd = 1 then (st, none)
  else _sendCommand hw cmd info st

/-- The block-handling tail of `Server._receiveData` (server.py
lines 202-210), applied to the `allData` value accumulated by the
`recv` loop (`none` models Python `None`, i.e. nothing was read).
`b"\xff"` closes and clears the connection; any other non-empty block
is appended to `_receivedData`. -/
def _receiveDataHandle (st : ServerState) (allData : Option (List Nat)) :
    ServerState :=
  match allData with
  | some d =>
      if d = [0xff] then { st with connected := false }
      else if d ≠ [] then { st with receivedData := st.receivedData ++ [d] }
      else st
  | none => st

/-- The one-byte header prepended to every file chunk by
`Server.sendFile` (server.py line 295): `bytes([(1 << 4) | info])`. -/
def fileChunkHeader (info : Nat) : Nat :=
  (1 <<< 4) ||| info

/-- The sequence of frames `Server.sendFile` (server.py lines 286-298)
passes to `sendall` for a file whose bytes are `data`: repeated
`file.read(bufferSize - 1)` until the read comes back empty, each chunk
sent as `bytes([(1 << 4) | info]) + readData`.  The two degenerate
buffer sizes mirror Python: `bufferSize = 0` makes `read(-1)` return
the whole file at once, `bufferSize = 1` makes `read(0)` return `b""`
immediately so the loop never runs. -/
def sendFileFrames (bufferSize info : Nat) (data : List Nat) : List (List Nat) :=
  if bufferSize = 0 then
    if data = [] then [] else [fileChunkHeader info :: data]
  else if bufferSize = 1 then []
  else if h : data = [] then []
  else
    (fileChunkHeader info :: data.take (bufferSize - 1)) ::
      sendFileFrames bufferSize info (data.drop (bufferSize - 1))
termination_by data.length
decreasing_by
  simp only [List.length_drop]
  have : data.length ≠ 0 := fun hn => h (List.eq_nil_of_length_eq_zero hn)
  omega

/-- `Server.sendFile`, state-level: the `os.path.isfile` check is done
by the caller (modelled as receiving the file bytes only when the path
is a file); with no peer attached the first `sendall` raises (re-raised
as `socket.error`), so nothing is written; an empty file never enters
the loop and succeeds without writing. -/
def sendFile (st : ServerState) (data : List Nat) (info : Nat) :
    ServerState × Option SocketError :=
  let frames := sendFileFrames st.bufferSize info data
  if frames = [] then (st, none)
  else if st.connected then
    ({ st with sentBytes := st.sentBytes ++ frames }, none)
  else (st, some .transmission)

/-- A Python exception crossing the identification handshake: either a
`socket.error` from `_sendCommand`, or an exception raised by the
identification predicate itself. -/
inductive PyError where
  | socketErr : SocketError → PyError
  | userErr : String → PyError
deriving Repr, DecidableEq

/-- `str(e)` of a modelled exception. -/
def PyError.msg : PyError → String
  | .socketErr e => e.msg
  | .userErr s => s

/-- `Server.askIdentification` (server.py lines 345-354):
`self._sendCommand(0, 0, 0)`, then `identification =
self._receiveData(blocking=True)` (modelled by the block `reply` the
socket yields, `none` when the read errored and returned `None`), then
`return self.identificationFunction(identification)`.  There is no
try/except anywhere in the body: an exception from the predicate (or
from `_sendCommand`) propagates to the caller. -/
def askIdentification (idFun : Option (List Nat) → Except PyError Bool)
    (st : ServerState) (reply : Option (List Nat)) :
    Except PyError (Bool × ServerState) :=
  match _sendCommand 0 0 0 st with
  | (_, some e) => .error (.socketErr e)
  | (st1, none) =>
      let st2 := _receiveDataHandle st1 reply
      match idFun reply with
      | .error e => .error e
      | .ok b => .ok (b, st2)

/-! ### The command dispatcher (programManager.py) -/

/-- Display flags of terminal.py (lines 64-69). -/
def BOLD : Nat := 0b00000001

/-- terminal.ALERT. -/
def ALERT : Nat := 0b00001000

/-- terminal.SENT. -/
def SENT : Nat := 0b00010000

/-- terminal.RECEIVED. -/
def RECEIVED : Nat := 0b00100000

/-- One history entry of the console, as appended by
`Terminal.addEntry(title, text, flags)`. -/
structure Entry where
  title : String
  text : String
  flags : Nat
deriving Repr, DecidableEq

/-- `Terminal.addEntry` (terminal.py lines 378-385): append, then drop
the oldest entry once the history exceeds 45 entries. -/
def addEntry (h : List Entry) (e : Entry) : List Entry :=
  let h2 := h ++ [e]
  if 45 < h2.length then h2.drop 1 else h2

/-- The `ProgramManager` state the dispatcher touches: the server, the
console history, and the two run flags. -/
structure PMState where
  server : ServerState
  history : List Entry
  running : Bool
  handleReceivedDataRunning : Bool
deriving Repr, DecidableEq

/-- `ProgramManager.stop` (programManager.py lines 185-195): clears both
run flags and stops the server (closing any peer connection); the file
browser and the terminal live outside the modelled state. -/
def pmStop (st : PMState) : PMState :=
  { st with running := false, handleReceivedDataRunning := false,
            server := { st.server with connected := false } }

/-- Decimal-digit run: `some` of the value once at least one digit has
been read, `none` on the empty run or a non-digit character. -/
def pyDigits : List Char → Option Nat → Option Nat
  | [], acc => acc
  | c :: cs, acc =>
      if c.isDigit then pyDigits cs (some ((acc.getD 0) * 10 + (c.toNat - 48)))
      else none

/-- Python `int(s)` on the plain decimal literals the dispatcher sees
(optionally signed digit runs); anything else raises `ValueError`. -/
def pyToInt (s : String) : Except String Int :=
  let res : Option Int :=
    match s.toList with
    | '-' :: rest => (pyDigits rest none).map (fun n => -(n : Int))
    | '+' :: rest => (pyDigits rest none).map (fun n => (n : Int))
    | l => (pyDigits l none).map (fun n => (n : Int))
  match res with
  | some n => .ok n
  | none => .error ("invalid literal for int() with base 10: " ++ s)

/-- Python `int(chunk, 2)` on one chunk of the padded bit string:
digits must all be 0 or 1. -/
def bitsToNat : List Char → Nat → Except String Nat
  | [], acc => .ok acc
  | c :: cs, acc =>
      if c = '0' then bitsToNat cs (acc * 2)
      else if c = '1' then bitsToNat cs (acc * 2 + 1)
      else .error "invalid literal for int() with base 2"

/-- Split a character list into chunks of 8 (the
`range(0, len(paddedBitString), 8)` slicing). -/
def chunk8 (l : List Char) : List (List Char) :=
  if h : l = [] then []
  else l.take 8 :: chunk8 (l.drop 8)
termination_by l.length
decreasing_by
  simp only [List.length_drop]
  have : l.length ≠ 0 := fun hn => h (List.eq_nil_of_length_eq_zero hn)
  omega

/-- The `custom -b` conversion (programManager.py lines 300-303): pad
the bit string on the right with zeros to a multiple of 8, then convert
each 8-character slice with `int(chunk, 2)`. -/
def bitStringToBytes (s : String) : Except String (List Nat) :=
  let padded := s.toList ++ List.replicate ((s.length + 7) / 8 * 8 - s.length) '0'
  (chunk8 padded).mapM (fun c => bitsToNat c 0)

/-- `" ".join(data).encode()`: code points of the joined string (the
dispatcher only joins ASCII operator input). -/
def joinEncode (data : List String) : List Nat :=
  (String.intercalate " " data).toList.map Char.toNat

/-- The external collaborators a dispatch may consult: the
identification predicate and the reply the socket yields for `id`, and
the outcome of `FilesManager.start()` plus the `os.path.isfile` check
and file read for `load` (`Except.error` models the exception text). -/
structure DispatchEnv where
  idFun : Option (List Nat) → Except PyError Bool
  idReply : Option (List Nat)
  loadFile : Except String (List Nat)

/-- The `try:` body of `ProgramManager._handleCommand` (programManager.py
lines 264-310).  Returns the state after the branch, the entries the
branch itself appended (the unknown-command entry and the `custom -b`
warning), and the outcome: `.ok true` falls through to the `else:`
success entry, `.ok false` is an early `return` (the `exit` and
unknown-command branches), `.error msg` is a raised exception caught by
the `except:` clause. -/
def handleCommandTry (env : DispatchEnv) (st : PMState) (command : String)
    (data : List String) : PMState × List Entry × Except String Bool :=
  if command = "exit" then (pmStop st, [], .ok false)
  else if command = "id" then
    match askIdentification env.idFun st.server env.idReply with
    | .error e => (st, [], .error e.msg)
    | .ok (_, sv) => ({ st with server := sv }, [], .ok true)
  else if command = "load" then
    match data with
    | [] => (st, [], .error "not enough parameter was given")
    | d0 :: _ =>
      match pyToInt d0 with
      | .error e => (st, [], .error e)
      | .ok info =>
        if info < 0 ∨ 7 < info then (st, [], .error "info has to be in range 0 to 7")
        else match env.loadFile with
          | .error e => (st, [], .error e)
          | .ok fileData =>
            match sendFile st.server fileData info.toNat with
            | (sv, some e) => ({ st with server := sv }, [], .error e.msg)
            | (sv, none) => ({ st with server := sv }, [], .ok true)
  else if command = "rstptr" then
    match data with
    | [] => (st, [], .error "no parameter was given")
    | d0 :: _ =>
      match if d0 = "all" then Except.ok (8 : Int) else pyToInt d0 with
      | .error e => (st, [], .error e)
      | .ok info =>
        if info < 0 ∨ 8 < info then (st, [], .error "info has to be in range 0 to 8")
        else match sendCommand 0 2 info st.server with
          | (sv, some e) => ({ st with server := sv }, [], .error e.msg)
          | (sv, none) => ({ st with server := sv }, [], .ok true)
  else if command = "status" then
    match sendCommand 1 0 0 st.server with
    | (sv, some e) => ({ st with server := sv }, [], .error e.msg)
    | (sv, none) => ({ st with server := sv }, [], .ok true)
  else if command = "route" then
    match data with
    | [] => (st, [], .error "no parameter was given")
    | d0 :: _ =>
      match pyToInt d0 with
      | .error e => (st, [], .error e)
      | .ok info =>
        if info < 0 ∨ 7 < info then (st, [], .error "info has to be in range 0 to 7")
        else match sendCommand 1 1 info st.server with
          | (sv, some e) => ({ st with server := sv }, [], .error e.msg)
          | (sv, none) => ({ st with server := sv }, [], .ok true)
  else if command = "rstfifo" then
    match sendCommand 1 2 0 st.server with
    | (sv, some e) => ({ st with server := sv }, [], .error e.msg)
    | (sv, none) => ({ st with server := sv }, [], .ok true)
  else if command = "rstfpga" then
    match sendCommand 1 2 1 st.server with
    | (sv, some e) => ({ st with server := sv }, [], .error e.msg)
    | (sv, none) => ({ st with server := sv }, [], .ok true)
  else if command = "custom" then
    if data ≠ [] ∧ data.headD "" = "-b" then
      let warn : List Entry :=
        if 2 < data.length then
          [⟨command, "warning : ignoring the parameters after " ++
            (data[1]?).getD "" ++ " because sending bits", BOLD⟩]
        else []
      let st1 := { st with history := warn.foldl addEntry st.history }
      match data[1]? with
      | none => (st1, warn, .error "list index out of range")
      | some bits =>
        match bitStringToBytes bits with
        | .error e => (st1, warn, .error e)
        | .ok bs =>
          if st.server.connected then
            ({ st1 with server := { st.server with sentBytes :=
                st.server.sentBytes ++ [ljust bs st.server.bufferSize 0] } },
              warn, .ok true)
          else (st1, warn, .error "NoneType object is not subscriptable")
    else
      if st.server.connected then
        ({ st with server := { st.server with sentBytes :=
            st.server.sentBytes ++ [joinEncode data] } }, [], .ok true)
      else (st, [], .error "NoneType object is not subscriptable")
  else
    let e : Entry := ⟨command, "command unknown", ALERT⟩
    ({ st with history := addEntry st.history e }, [e], .ok false)

/-- `ProgramManager._handleCommand` (programManager.py lines 260-316):
run the try body, then the `except:` failure entry or the `else:`
success entry (whose text reproduces the source's precedence slip: with
arguments the string is just `" with data: ..."`).  Returns the new
state and the trace of entries appended for this command. -/
def handleCommand (env : DispatchEnv) (st : PMState) (command : String)
    (data : List String) : PMState × List Entry :=
  match handleCommandTry env st command data with
  | (st1, es, .error e) =>
      let entry : Entry := ⟨command, "could not send the command: " ++ e, ALERT⟩
      ({ st1 with history := addEntry st1.history entry }, es ++ [entry])
  | (st1, es, .ok false) => (st1, es)
  | (st1, es, .ok true) =>
      let txt := if data.isEmpty then "executed"
        else " with data: " ++ String.intercalate " " data
      let entry : Entry := ⟨command, txt, SENT⟩
      ({ st1 with history := addEntry st1.history entry }, es ++ [entry])

/-! ### Concrete states used by counterexamples and witnesses -/

/-- A server with a peer attached (`bufferSize` 512 as in
`ProgramManager.__init__`). -/
def stConn : ServerState :=
  { bufferSize := 512, connected := true, receivedData := [], sentBytes := [] }

/-- A server with no peer attached. -/
def stDisc : ServerState :=
  { bufferSize := 512, connected := false, receivedData := [], sentBytes := [] }

/-- A program manager whose server has a peer attached. -/
def pmConn : PMState :=
  { server := stConn, history := [], running := true,
    handleReceivedDataRunning := true }

/-- A dispatch environment whose identification predicate accepts and
whose file lookup fails. -/
def env0 : DispatchEnv :=
  { idFun := fun _ => .ok true, idReply := some [1], loadFile := .error "nofile" }

/-! ### Claim theorems -/

/-- C1: for every valid triple `(target, command, info)` with
`target ∈ {0,1}`, `command ∈ [0,7]`, `info ∈ [0,15]`, decoding the
header byte produced by `Server._sendCommand` with the consumer-side
decoding of `ProgramManager._handleReceivedData` yields back exactly
`(target, command, info)`. -/
theorem C1_header_roundtrip (hw cmd info : Nat)
    (hhw : hw < 2) (hcmd : cmd < 8) (hinfo : info < 16) :
    decodeHeader (encodeHeader hw cmd info) = (hw, cmd, info) := by
  have h : ∀ hw < 2, ∀ cmd < 8, ∀ info < 16,
      decodeHeader (encodeHeader hw cmd info) = (hw, cmd, info) := by decide
  exact h hw hhw cmd hcmd info hinfo

/-- Witness for C1 at the triple `(1, 5, 9)`. -/
theorem C1_header_roundtrip_witness :
    1 < 2 ∧ 5 < 8 ∧ 9 < 16 ∧ decodeHeader (encodeHeader 1 5 9) = (1, 5, 9) :=
  ⟨by decide, by decide, by decide,
    C1_header_roundtrip 1 5 9 (by decide) (by decide) (by decide)⟩

/-- C4: a received block equal to the single byte `0xFF` closes and
clears the peer connection and appends nothing to the inbound queue. -/
theorem C4_sentinel_drops_connection (st : ServerState) :
    (_receiveDataHandle st (some [0xff])).connected = false ∧
    (_receiveDataHandle st (some [0xff])).receivedData = st.receivedData := by
  simp [_receiveDataHandle]

/-- C10: `sendCommand(0, 1, info)` returns normally for every `info`
and every connection state, leaving the state (in particular the trace
of transmitted bytes) untouched and raising nothing. -/
theorem C10_reserved_bypass (info : Int) (st : ServerState) :
    sendCommand 0 1 info st = (st, none) := by
  simp [sendCommand]

/-- C3 counterexample: with a peer connected and `info = 16` out of
range, `sendCommand(0, 1, 16)` returns normally — no `ProtocolError` is
raised, because the reserved `(target, command) = (0, 1)` redirect runs
before any validation.  This refutes the claim as stated. -/
theorem C3_bypass_counterexample :
    sendCommand 0 1 16 stConn = (stConn, none) := by
  simp [sendCommand]

/-- C3 amended: for every call with a peer connected,
`(target, command) ≠ (0, 1)`, and a field out of range
(`target ∉ {0,1}` or `command ∉ [0,7]` or `info ∉ [0,15]`), the call
raises a `ProtocolError`-class `socket.error` and no bytes are written
to the transport (the returned state is the input state). -/
theorem C3_protocol_error_on_invalid_fields (hw cmd info : Int)
    (st : ServerState) (hc : st.connected = true)
    (hb : ¬(hw = 0 ∧ cmd = 1))
    (hbad : (hw ≠ 0 ∧ hw ≠ 1) ∨ cmd < 0 ∨ 7 < cmd ∨ info < 0 ∨ 15 < info) :
    ∃ e, sendCommand hw cmd info st = (st, some e) ∧ e.isProtocol = true := by
  rw [sendCommand, if_neg hb, _sendCommand]
  rw [hc]
  simp only [Bool.true_eq_false, if_false]
  by_cases h1 : hw ≠ 0 ∧ hw ≠ 1
  · exact ⟨.badHw, by rw [if_pos h1], rfl⟩
  · rw [if_neg h1]
    by_cases h2 : cmd < 0 ∨ 7 < cmd
    · exact ⟨.badCmd, by rw [if_pos h2], rfl⟩
    · rw [if_neg h2]
      by_cases h3 : info < 0 ∨ 15 < info
      · exact ⟨.badInfo, by rw [if_pos h3], rfl⟩
      · exfalso
        rcases hbad with h | h | h | h | h <;> tauto

/-- Witness for C3 amended at `sendCommand(0, 2, 16)` on a connected
server. -/
theorem C3_protocol_error_witness :
    stConn.connected = true ∧ ¬((0 : Int) = 0 ∧ (2 : Int) = 1) ∧
    (∃ e, sendCommand 0 2 16 stConn = (stConn, some e) ∧ e.isProtocol = true) :=
  ⟨rfl, by decide,
    C3_protocol_error_on_invalid_fields 0 2 16 stConn rfl (by decide)
      (by right; right; right; right; decide)⟩

/-- C5 counterexample: a predicate that raises makes
`askIdentification` itself raise — the exception propagates instead of
being converted into a rejection.  This refutes the claim that a
predicate exception yields a close-and-resume outcome. -/
theorem C5_predicate_exception_counterexample :
    askIdentification (fun _ => .error (.userErr "boom")) stConn (some [1, 2])
      = .error (.userErr "boom") := by
  simp [askIdentification, _sendCommand, stConn]

/-- C5 amended: during the identification handshake on a connected
peer, an exception raised by the identification predicate propagates
unchanged out of `askIdentification` (and hence out of the manager's
`run` loop, which wraps the handshake in no try/except), rather than
being treated as a rejection. -/
theorem C5_predicate_exception_propagates
    (f : Option (List Nat) → Except PyError Bool) (st : ServerState)
    (reply : Option (List Nat)) (e : PyError)
    (hc : st.connected = true) (hf : f reply = .error e) :
    askIdentification f st reply = .error e := by
  rw [askIdentification]
  have hsend : _sendCommand 0 0 0 st =
      ({ st with sentBytes :=
        st.sentBytes ++ [ljust [encodeHeader 0 0 0] st.bufferSize 0] }, none) := by
    rw [_sendCommand, hc]
    norm_num
  rw [hsend]
  simp only [hf]

/-- Witness for C5 amended: a concrete raising predicate on a connected
server. -/
theorem C5_predicate_exception_witness :
    stConn.connected = true ∧
    (fun (_ : Option (List Nat)) =>
        Except.error (ε := PyError) (α := Bool) (.userErr "kaput")) (some [3])
      = .error (.userErr "kaput") ∧
    askIdentification
      (fun _ => Except.error (.userErr "kaput")) stConn (some [3])
      = .error (.userErr "kaput") :=
  ⟨rfl, rfl,
    C5_predicate_exception_propagates
      (fun _ => Except.error (.userErr "kaput")) stConn (some [3])
      (.userErr "kaput") rfl rfl⟩

/-- C6 counterexample: with no peer attached, `sendCommand(0, 1, 0)`
returns normally instead of failing with `NotConnectedError` — the
reserved `(0, 1)` redirect runs before the connection check.  This
refutes the "for all values of target, command, and info" claim. -/
theorem C6_no_peer_counterexample :
    sendCommand 0 1 0 stDisc = (stDisc, none) := by
  simp [sendCommand]

/-- C6 amended: with no peer attached and
`(target, command) ≠ (0, 1)`, `sendCommand` fails with
`NotConnectedError` and writes nothing (the state is returned
untouched), for all field values. -/
theorem C6_not_connected_error (hw cmd info : Int) (st : ServerState)
    (hc : st.connected = false) (hb : ¬(hw = 0 ∧ cmd = 1)) :
    sendCommand hw cmd info st = (st, some .notConnected) := by
  rw [sendCommand, if_neg hb, _sendCommand, hc]
  simp

/-- Witness for C6 amended at `sendCommand(1, 0, 0)` on a disconnected
server. -/
theorem C6_not_connected_witness :
    stDisc.connected = false ∧ ¬((1 : Int) = 0 ∧ (0 : Int) = 1) ∧
    sendCommand 1 0 0 stDisc = (stDisc, some .notConnected) :=
  ⟨rfl, by decide, C6_not_connected_error 1 0 0 stDisc rfl (by decide)⟩

/-- An empty file makes `sendFile` send nothing. -/
theorem sendFileFrames_nil (bufferSize info : Nat) :
    sendFileFrames bufferSize info [] = [] := by
  rw [sendFileFrames.eq_def]
  simp

/-- One iteration of the `sendFile` read-and-send loop, for the
non-degenerate buffer sizes. -/
theorem sendFileFrames_cons (bufferSize info : Nat) (data : List Nat)
    (h2 : 2 ≤ bufferSize) (hd : data ≠ []) :
    sendFileFrames bufferSize info data =
      (fileChunkHeader info :: data.take (bufferSize - 1)) ::
        sendFileFrames bufferSize info (data.drop (bufferSize - 1)) := by
  rw [sendFileFrames.eq_def]
  have h0 : bufferSize ≠ 0 := by omega
  have h1 : bufferSize ≠ 1 := by omega
  simp [h0, h1, hd]

/-- Every frame `sendFile` emits starts with the one-byte header
`(1 << 4) | info`. -/
theorem sendFileFrames_head (bufferSize info : Nat) :
    ∀ (data : List Nat), ∀ f ∈ sendFileFrames bufferSize info data,
      f.head? = some (fileChunkHeader info) := by
  suffices h : ∀ (n : Nat) (data : List Nat), data.length ≤ n →
      ∀ f ∈ sendFileFrames bufferSize info data,
        f.head? = some (fileChunkHeader info) by
    intro data
    exact h data.length data le_rfl
  intro n
  induction n with
  | zero =>
      intro data hlen f hf
      rw [List.length_eq_zero.mp (Nat.le_zero.mp hlen)] at hf
      rw [sendFileFrames_nil] at hf
      exact absurd hf (List.not_mem_nil f)
  | succ n ih =>
      intro data hlen f hf
      rw [sendFileFrames.eq_def] at hf
      by_cases h0 : bufferSize = 0
      · rw [if_pos h0] at hf
        by_cases hd : data = []
        · rw [if_pos hd] at hf
          exact absurd hf (List.not_mem_nil f)
        · rw [if_neg hd] at hf
          rw [List.mem_singleton.mp hf]
          rfl
      · rw [if_neg h0] at hf
        by_cases h1 : bufferSize = 1
        · rw [if_pos h1] at hf
          exact absurd hf (List.not_mem_nil f)
        · rw [if_neg h1] at hf
          by_cases hd : data = []
          · simp only [hd, dif_pos] at hf
            exact absurd hf (List.not_mem_nil f)
          · simp only [dif_neg hd] at hf
            rcases List.mem_cons.mp hf with hcons | hrec
            · rw [hcons]
              rfl
            · refine ih (data.drop (bufferSize - 1)) ?_ f hrec
              have hpos : 0 < data.length := List.length_pos.mpr hd
              have : data.length ≤ n + 1 := hlen
              simp only [List.length_drop]
              omega

/-- C2 counterexample: the file frame emitted for the one-byte file
`[7]` is `[16, 7]`, and the header byte `16 = (1 << 4) | 0` has top bit
`0`, not `1`: `sendFile` frames are not `target = 1` frames.  (The
header's high nibble is `1`, i.e. `target = 0, command = 1`, matching
the `sendCommand` redirect and the receiver's `load` decoding.) -/
theorem C2_target_bit_counterexample :
    sendFileFrames 512 0 [7] = [[16, 7]] ∧ (16 : Nat) >>> 7 = 0 := by
  constructor
  · rw [sendFileFrames_cons 512 0 [7] (by norm_num) (by simp)]
    simp [sendFileFrames_nil, fileChunkHeader]
  · decide

/-- C2 amended: every file chunk emitted by `sendFile` is prepended the
one-byte header `(1 << 4) | info`, whose target bit (bit 7) is `0` and
whose command field is `1` — on the wire a file frame is a
`(target = 0, command = 1, info)` frame. -/
theorem C2_file_frames_target_zero (bufferSize info : Nat)
    (data : List Nat) (hinfo : info < 16) :
    ∀ f ∈ sendFileFrames bufferSize info data,
      f.head? = some (fileChunkHeader info) ∧
      decodeHeader (fileChunkHeader info) = (0, 1, info) := by
  intro f hf
  refine ⟨sendFileFrames_head bufferSize info data f hf, ?_⟩
  have h : ∀ i < 16, decodeHeader (fileChunkHeader i) = (0, 1, i) := by decide
  exact h info hinfo

/-- Witness for C2 amended: the single frame sent for the file `[7, 8]`
with `info = 5` and buffer size 4. -/
theorem C2_file_frames_witness :
    (5 : Nat) < 16 ∧
    ([21, 7, 8] : List Nat).head? = some (fileChunkHeader 5) ∧
    decodeHeader (fileChunkHeader 5) = (0, 1, 5) :=
  ⟨by decide,
    C2_file_frames_target_zero 4 5 [7, 8] (by decide) [21, 7, 8]
      (by rw [sendFileFrames_cons 4 5 [7, 8] (by norm_num) (by simp)]
          simp [sendFileFrames_nil, fileChunkHeader])⟩

/-- C7: `sendFile` on a 2500-byte file with `bufferSize = 1024` emits
exactly 3 frames; the payload (the frame minus its header byte) is at
most 1023 bytes per frame, the payload sizes are `[1023, 1023, 454]`,
and the payload bytes sent total the file size 2500. -/
theorem C7_sendFile_chunking (info : Nat) (data : List Nat)
    (hlen : data.length = 2500) :
    (sendFileFrames 1024 info data).length = 3 ∧
    (sendFileFrames 1024 info data).map (fun f => f.tail.length)
      = [1023, 1023, 454] ∧
    ((sendFileFrames 1024 info data).map (fun f => f.tail.length)).sum = 2500 ∧
    ∀ f ∈ sendFileFrames 1024 info data, f.tail.length ≤ 1023 := by
  have hd1 : data ≠ [] := by
    intro h
    rw [h] at hlen
    simp at hlen
  have hlen2 : (data.drop 1023).length = 1477 := by
    simp [hlen]
  have hd2 : data.drop 1023 ≠ [] := by
    intro h
    rw [h] at hlen2
    simp at hlen2
  have hlen3 : ((data.drop 1023).drop 1023).length = 454 := by
    simp [hlen]
  have hd3 : (data.drop 1023).drop 1023 ≠ [] := by
    intro h
    rw [h] at hlen3
    simp at hlen3
  have hnil : ((data.drop 1023).drop 1023).drop 1023 = [] := by
    refine List.eq_nil_of_length_eq_zero ?_
    simp only [List.length_drop, hlen]
  have e1 : (1024 : Nat) - 1 = 1023 := by norm_num
  have hframes : sendFileFrames 1024 info data =
      [fileChunkHeader info :: data.take 1023,
       fileChunkHeader info :: (data.drop 1023).take 1023,
       fileChunkHeader info :: ((data.drop 1023).drop 1023).take 1023] := by
    rw [sendFileFrames_cons 1024 info data (by norm_num) hd1, e1]
    rw [sendFileFrames_cons 1024 info _ (by norm_num) hd2, e1]
    rw [sendFileFrames_cons 1024 info _ (by norm_num) hd3, e1]
    rw [hnil, sendFileFrames_nil]
  have ht1 : (data.take 1023).length = 1023 := by
    simp only [List.length_take, hlen]
    omega
  have ht2 : ((data.drop 1023).take 1023).length = 1023 := by
    simp only [List.length_take, List.length_drop, hlen]
    omega
  have ht3 : (((data.drop 1023).drop 1023).take 1023).length = 454 := by
    simp only [List.length_take, List.length_drop, hlen]
    omega
  rw [hframes]
  refine ⟨rfl, ?_, ?_, ?_⟩
  · simp only [List.map_cons, List.map_nil, List.tail_cons, ht1, ht2, ht3]
  · simp only [List.map_cons, List.map_nil, List.tail_cons, ht1, ht2, ht3,
      List.sum_cons, List.sum_nil]
    omega
  · intro f hf
    simp only [List.mem_cons, List.not_mem_nil, or_false] at hf
    rcases hf with rfl | rfl | rfl
    · rw [List.tail_cons, ht1]
    · rw [List.tail_cons, ht2]
    · rw [List.tail_cons, ht3]
      omega

/-- Witness for C7 on the concrete 2500-byte all-zeros file. -/
theorem C7_sendFile_chunking_witness :
    (List.replicate 2500 0).length = 2500 ∧
    ((sendFileFrames 1024 3 (List.replicate 2500 0)).length = 3 ∧
     (sendFileFrames 1024 3 (List.replicate 2500 0)).map
        (fun f => f.tail.length) = [1023, 1023, 454] ∧
     ((sendFileFrames 1024 3 (List.replicate 2500 0)).map
        (fun f => f.tail.length)).sum = 2500 ∧
     ∀ f ∈ sendFileFrames 1024 3 (List.replicate 2500 0),
        f.tail.length ≤ 1023) :=
  ⟨by rw [List.length_replicate],
    C7_sendFile_chunking 3 (List.replicate 2500 0)
      (by rw [List.length_replicate])⟩

/-- Splitting `_handleCommand` along the try/except/else structure: the
entries appended for one dispatch are the entries appended inside the
try body plus, unless the body returned early, exactly one outcome
entry (the `else:` success entry or the `except:` failure entry). -/
theorem handleCommand_len (env : DispatchEnv) (st : PMState)
    (command : String) (data : List String) :
    (handleCommand env st command data).2.length =
      (handleCommandTry env st command data).2.1.length +
        (match (handleCommandTry env st command data).2.2 with
         | .ok false => 0
         | _ => 1) := by
  rw [handleCommand.eq_def]
  rcases h : handleCommandTry env st command data with ⟨st1, es, out⟩
  rcases out with e | b
  · simp
  · cases b <;> simp

/-- The `exit` branch: `stop()` and a bare `return` — nothing appended. -/
theorem tryExit (env : DispatchEnv) (st : PMState) (data : List String) :
    handleCommandTry env st "exit" data = (pmStop st, [], .ok false) := by
  rw [handleCommandTry.eq_def]
  simp

/-- The `id` branch appends nothing inside the try body and never
returns early. -/
theorem tryId (env : DispatchEnv) (st : PMState) (data : List String) :
    (handleCommandTry env st "id" data).2.1 = [] ∧
    (handleCommandTry env st "id" data).2.2 ≠ .ok false := by
  rw [handleCommandTry.eq_def]
  simp only [reduceIte, String.reduceEq]
  split <;> simp

/-- The `load` branch appends nothing inside the try body and never
returns early. -/
theorem tryLoad (env : DispatchEnv) (st : PMState) (data : List String) :
    (handleCommandTry env st "load" data).2.1 = [] ∧
    (handleCommandTry env st "load" data).2.2 ≠ .ok false := by
  rw [handleCommandTry.eq_def]
  simp only [reduceIte, String.reduceEq]
  rcases data with _ | ⟨d0, rest⟩
  · simp
  · (repeat' split) <;> simp

/-- The `rstptr` branch appends nothing inside the try body and never
returns early. -/
theorem tryRstptr (env : DispatchEnv) (st : PMState) (data : List String) :
    (handleCommandTry env st "rstptr" data).2.1 = [] ∧
    (handleCommandTry env st "rstptr" data).2.2 ≠ .ok false := by
  rw [handleCommandTry.eq_def]
  simp only [reduceIte, String.reduceEq]
  rcases data with _ | ⟨d0, rest⟩
  · simp
  · (repeat' split) <;> simp

/-- The `status` branch appends nothing inside the try body and never
returns early. -/
theorem tryStatus (env : DispatchEnv) (st : PMState) (data : List String) :
    (handleCommandTry env st "status" data).2.1 = [] ∧
    (handleCommandTry env st "status" data).2.2 ≠ .ok false := by
  rw [handleCommandTry.eq_def]
  simp only [reduceIte, String.reduceEq]
  (repeat' split) <;> simp

/-- The `route` branch appends nothing inside the try body and never
returns early. -/
theorem tryRoute (env : DispatchEnv) (st : PMState) (data : List String) :
    (handleCommandTry env st "route" data).2.1 = [] ∧
    (handleCommandTry env st "route" data).2.2 ≠ .ok false := by
  rw [handleCommandTry.eq_def]
  simp only [reduceIte, String.reduceEq]
  rcases data with _ | ⟨d0, rest⟩
  · simp
  · (repeat' split) <;> simp

/-- The `rstfifo` branch appends nothing inside the try body and never
returns early. -/
theorem tryRstfifo (env : DispatchEnv) (st : PMState) (data : List String) :
    (handleCommandTry env st "rstfifo" data).2.1 = [] ∧
    (handleCommandTry env st "rstfifo" data).2.2 ≠ .ok false := by
  rw [handleCommandTry.eq_def]
  simp only [reduceIte, String.reduceEq]
  (repeat' split) <;> simp

/-- The `rstfpga` branch appends nothing inside the try body and never
returns early. -/
theorem tryRstfpga (env : DispatchEnv) (st : PMState) (data : List String) :
    (handleCommandTry env st "rstfpga" data).2.1 = [] ∧
    (handleCommandTry env st "rstfpga" data).2.2 ≠ .ok false := by
  rw [handleCommandTry.eq_def]
  simp only [reduceIte, String.reduceEq]
  (repeat' split) <;> simp

/-- The `custom` branch appends the bit-mode warning inside the try
body exactly when called as `custom -b` with more than two arguments,
and never returns early. -/
theorem tryCustom (env : DispatchEnv) (st : PMState) (data : List String) :
    (handleCommandTry env st "custom" data).2.1.length =
      (if data.headD "" = "-b" ∧ 2 < data.length then 1 else 0) ∧
    (handleCommandTry env st "custom" data).2.2 ≠ .ok false := by
  rw [handleCommandTry.eq_def]
  simp only [reduceIte, String.reduceEq]
  by_cases hb : data ≠ [] ∧ data.headD "" = "-b"
  · rw [if_pos hb]
    by_cases hlen : 2 < data.length <;> (repeat' split) <;> simp_all
  · rw [if_neg hb]
    have hx : ¬(data.headD "" = "-b" ∧ 2 < data.length) := by
      intro hc
      refine hb ⟨?_, hc.1⟩
      intro he
      rw [he] at hc
      simp at hc
    (repeat' split) <;> simp [hx]

/-- An unmapped command name yields the single "command unknown" entry
and returns early. -/
theorem tryUnknown (env : DispatchEnv) (st : PMState) (command : String)
    (data : List String)
    (h : command ∉ (["exit", "id", "load", "rstptr", "status", "route",
      "rstfifo", "rstfpga", "custom"] : List String)) :
    (handleCommandTry env st command data).2.1.length = 1 ∧
    (handleCommandTry env st command data).2.2 = .ok false := by
  simp only [List.mem_cons, List.not_mem_nil, or_false, not_or] at h
  obtain ⟨h1, h2, h3, h4, h5, h6, h7, h8, h9⟩ := h
  rw [handleCommandTry.eq_def]
  rw [if_neg h1, if_neg h2, if_neg h3, if_neg h4, if_neg h5, if_neg h6,
    if_neg h7, if_neg h8, if_neg h9]
  simp

/-- An outcome other than an early return contributes one entry. -/
theorem matchOne {out : Except String Bool} (h : out ≠ .ok false) :
    (match out with | .ok false => (0 : Nat) | _ => 1) = 1 := by
  rcases out with e | b
  · rfl
  · cases b
    · exact absurd rfl h
    · rfl

/-- C8 counterexample: dispatching `exit` appends zero history entries
(`stop()` then a bare `return`), refuting "exactly one history entry
... for every operator-submitted command line ... including ... the
exit command". -/
theorem C8_exit_counterexample :
    (handleCommand env0 pmConn "exit" []).2.length = 0 := by
  rw [handleCommand_len, tryExit]
  rfl

/-- C8 amended: no exception propagates out of the dispatcher, and each
dispatched command appends exactly one history entry — except `exit`,
which appends none, and `custom -b` with more than two arguments, which
appends two (the ignored-parameters warning plus the outcome entry).
The dispatcher is modelled as a total function, so non-propagation is
by construction (the source wraps the whole body in
`try/except Exception`); the theorem settles the entry counts. -/
theorem C8_dispatch_entry_count (env : DispatchEnv) (st : PMState)
    (command : String) (data : List String) :
    (handleCommand env st command data).2.length =
      if command = "exit" then 0
      else if command = "custom" ∧ data.headD "" = "-b" ∧ 2 < data.length then 2
      else 1 := by
  rw [handleCommand_len]
  by_cases h1 : command = "exit"
  · subst h1
    rw [tryExit]
    simp
  by_cases h2 : command = "id"
  · subst h2
    obtain ⟨ha, hb⟩ := tryId env st data
    rw [ha, matchOne hb]
    simp
  by_cases h3 : command = "load"
  · subst h3
    obtain ⟨ha, hb⟩ := tryLoad env st data
    rw [ha, matchOne hb]
    simp
  by_cases h4 : command = "rstptr"
  · subst h4
    obtain ⟨ha, hb⟩ := tryRstptr env st data
    rw [ha, matchOne hb]
    simp
  by_cases h5 : command = "status"
  · subst h5
    obtain ⟨ha, hb⟩ := tryStatus env st data
    rw [ha, matchOne hb]
    simp
  by_cases h6 : command = "route"
  · subst h6
    obtain ⟨ha, hb⟩ := tryRoute env st data
    rw [ha, matchOne hb]
    simp
  by_cases h7 : command = "rstfifo"
  · subst h7
    obtain ⟨ha, hb⟩ := tryRstfifo env st data
    rw [ha, matchOne hb]
    simp
  by_cases h8 : command = "rstfpga"
  · subst h8
    obtain ⟨ha, hb⟩ := tryRstfpga env st data
    rw [ha, matchOne hb]
    simp
  by_cases h9 : command = "custom"
  · subst h9
    obtain ⟨ha, hb⟩ := tryCustom env st data
    rw [ha, matchOne hb]
    by_cases hcond : data.headD "" = "-b" ∧ 2 < data.length
    · rw [if_pos hcond]
      rw [if_neg (by decide : ¬("custom" = "exit"))]
      rw [if_pos ⟨rfl, hcond.1, hcond.2⟩]
    · rw [if_neg hcond]
      rw [if_neg (by decide : ¬("custom" = "exit"))]
      rw [if_neg (fun h => hcond ⟨h.2.1, h.2.2⟩)]
  · obtain ⟨ha, hb⟩ := tryUnknown env st command data
      (by simp [h1, h2, h3, h4, h5, h6, h7, h8, h9])
    rw [ha, hb]
    simp [h1, h9]

/-- C9: in a connected state, `rstptr all` writes exactly the command
frame of `sendCommand(0, 2, 8)` (header byte `0x28` zero-padded to the
buffer size), and `rstptr 9` fails validation and writes nothing. -/
theorem C9_rstptr_dispatch (env : DispatchEnv) (st : PMState)
    (hc : st.server.connected = true) :
    (handleCommand env st "rstptr" ["all"]).1.server.sentBytes
        = st.server.sentBytes ++
            [ljust [encodeHeader 0 2 8] st.server.bufferSize 0] ∧
    (handleCommand env st "rstptr" ["9"]).1.server.sentBytes
        = st.server.sentBytes := by
  have hsend : sendCommand 0 2 8 st.server =
      ({ st.server with sentBytes := st.server.sentBytes ++
          [ljust [encodeHeader 0 2 8] st.server.bufferSize 0] }, none) := by
    simp [sendCommand, _sendCommand, hc]
  have h9 : pyToInt "9" = .ok 9 := rfl
  constructor
  · rw [handleCommand.eq_def, handleCommandTry.eq_def]
    simp [hsend]
  · rw [handleCommand.eq_def, handleCommandTry.eq_def]
    simp [h9]

/-- Witness for C9 on the concrete connected manager. -/
theorem C9_rstptr_witness :
    pmConn.server.connected = true ∧
    ((handleCommand env0 pmConn "rstptr" ["all"]).1.server.sentBytes
        = pmConn.server.sentBytes ++
            [ljust [encodeHeader 0 2 8] pmConn.server.bufferSize 0] ∧
     (handleCommand env0 pmConn "rstptr" ["9"]).1.server.sentBytes
        = pmConn.server.sentBytes) :=
  ⟨rfl, C9_rstptr_dispatch env0 pmConn rfl⟩

end EthernetUart
